import Mathlib

/-!
Shallow embedding of the WishCube gift/wallet settlement subsystem.

The definitions below translate, operation by operation, the TypeScript
request handlers of the repository:
  * `walletController.ts` — `getOrCreateWallet`, `fundWallet`,
    `verifyWalletPayment`, `paystackWebhook`;
  * the gift controller — `purchaseGift`, `addToGiftBox`, `redeemGiftBox`;
  * the `Wallet`, `Gift`, `GiftBox` mongoose models, including the
    pre-save hook that assigns a redemption code;
  * `paymentService.ts` — `verifyWebhookSignature`.

Monetary values are JavaScript numbers in the source; they are modelled as
rationals (`ℚ`), so that the webhook's `amount / 100` division is exact.
Mongo documents are modelled as Lean structures, collections as lists, and
`findOne` as `List.find?` (first match).  Mutating a found document and
saving it is modelled by rewriting the first matching list element.
-/

namespace WishCube

/-- Rewrite the first element of a list satisfying `p` using `f`;
models mutating the document returned by `findOne` and saving it. -/
def updateFirst (p : α → Bool) (f : α → α) : List α → List α
  | [] => []
  | x :: xs => if p x then f x :: xs else x :: updateFirst p f xs

inductive TxType
  | credit
  | debit
deriving DecidableEq, Repr

inductive TxStatus
  | pending
  | completed
  | failed
deriving DecidableEq, Repr

/-- One entry of the wallet's embedded transaction log
(`transactionSchema` in the Wallet model). -/
structure Transaction where
  type : TxType
  amount : ℚ
  reference : String
  txDescription : String
  status : TxStatus
deriving DecidableEq, Repr

/-- A wallet document (`walletSchema`): one per user, a balance and the
embedded transaction list. -/
structure Wallet where
  userId : ℕ
  balance : ℚ
  transactions : List Transaction
deriving DecidableEq, Repr

/-- Sum of the amounts of the transactions with the given type and status. -/
def txnSum (ty : TxType) (st : TxStatus) : List Transaction → ℚ
  | [] => 0
  | t :: ts => (if t.type = ty ∧ t.status = st then t.amount else 0) + txnSum ty st ts

/-- A catalog gift (`giftSchema`): value credited on redemption, price paid
on purchase, optional tracked stock, active flag. -/
structure Gift where
  name : String
  value : ℚ
  price : ℚ
  isActive : Bool
  stock : Option ℚ
deriving DecidableEq, Repr

/-- One line item of a gift box (`giftBoxItemSchema`). -/
structure GiftBoxItem where
  giftId : ℕ
  quantity : ℚ
  purchasedAt : ℕ
deriving DecidableEq, Repr

/-- A gift box document (`giftBoxSchema`).  `redemptionCode = none` models a
document on which the pre-save hook has not yet run. -/
structure GiftBox where
  boxId : ℕ
  senderId : ℕ
  cardId : Option ℕ
  websiteId : Option ℕ
  recipientEmail : Option String
  gifts : List GiftBoxItem
  isRedeemed : Bool
  redeemedAt : Option ℕ
  redemptionCode : Option String
deriving DecidableEq, Repr

/-- The slice of a card document the gift subsystem reads and writes. -/
structure Card where
  cardId : ℕ
  userId : ℕ
  giftBox : Option ℕ
deriving DecidableEq, Repr

/-- The slice of a website document the gift subsystem reads and writes. -/
structure Website where
  websiteId : ℕ
  userId : ℕ
  giftBox : Option ℕ
deriving DecidableEq, Repr

/-- The persistent state touched by the settlement subsystem. -/
structure AppState where
  wallets : List Wallet
  gifts : List (ℕ × Gift)
  giftBoxes : List GiftBox
  cards : List Card
  websites : List Website
deriving DecidableEq, Repr

/-- The fields of a Paystack webhook body that `paystackWebhook` reads. -/
structure WebhookPayload where
  event : String
  reference : String
  amount : ℚ
deriving DecidableEq, Repr

/-- `getOrCreateWallet` in `walletController.ts`: find the user's wallet or
create one with zero balance. -/
def getOrCreateWallet (userId : ℕ) (s : AppState) : Wallet × AppState :=
  match s.wallets.find? (fun w => decide (w.userId = userId)) with
  | some w => (w, s)
  | none =>
      let w : Wallet := { userId := userId, balance := 0, transactions := [] }
      (w, { s with wallets := s.wallets ++ [w] })

/-- `fundWallet`: get-or-create the wallet, then push a `pending` credit
transaction for the requested amount and save.  (The Paystack initialize
round trip happens afterwards and does not touch the ledger.) -/
def fundWallet (userId : ℕ) (amount : ℚ) (reference : String) (s : AppState) : AppState :=
  let found := getOrCreateWallet userId s
  let w := found.1
  let tx : Transaction :=
    { type := .credit, amount := amount, reference := reference,
      txDescription := "Wallet funding", status := .pending }
  let w' : Wallet := { w with transactions := w.transactions ++ [tx] }
  let ws := updateFirst (fun x => decide (x.userId = userId)) (fun _ => w') found.2.wallets
  { found.2 with wallets := ws }

/-- Does this wallet hold a transaction with the given reference?
(the Mongo query `{"transactions.reference": reference}`). -/
def walletHasRef (reference : String) (w : Wallet) : Bool :=
  w.transactions.any (fun t => decide (t.reference = reference))

/-- Set the first transaction with the given reference to `completed`
(the handlers mutate the first match returned by `find`). -/
def completeFirstTx (reference : String) (txs : List Transaction) : List Transaction :=
  updateFirst (fun t => decide (t.reference = reference))
    (fun t => { t with status := .completed }) txs

inductive VerifyResult
  | notSuccessful
  | txNotFound
  | verified (balance : ℚ) (amountFromGateway : ℚ)
deriving DecidableEq, Repr

/-- `verifyWalletPayment`: if the gateway reports `success`, locate the
wallet holding the reference; if the matching transaction is still
`pending`, mark it `completed` and add its recorded amount to the balance. -/
def verifyWalletPayment (reference : String) (gwStatus : String) (gwAmount : ℚ)
    (s : AppState) : VerifyResult × AppState :=
  if gwStatus ≠ "success" then (.notSuccessful, s)
  else
    match s.wallets.find? (walletHasRef reference) with
    | none => (.txNotFound, s)
    | some w =>
      match w.transactions.find? (fun t => decide (t.reference = reference)) with
      | none => (.verified w.balance (gwAmount / 100), s)
      | some t =>
        if t.status = .pending then
          let w' : Wallet :=
            { w with balance := w.balance + t.amount,
                     transactions := completeFirstTx reference w.transactions }
          let ws := updateFirst (walletHasRef reference) (fun _ => w') s.wallets
          (.verified w'.balance (gwAmount / 100), { s with wallets := ws })
        else (.verified w.balance (gwAmount / 100), s)

/-- `verifyWebhookSignature` in `paymentService.ts`: compare the HMAC-SHA512
digest of the payload with the signature header.  The digest function
(payload to hex digest under the shared secret) is a parameter. -/
def verifyWebhookSignature (digest : WebhookPayload → String)
    (payload : WebhookPayload) (signature : String) : Bool :=
  decide (digest payload = signature)

inductive WebhookResult
  | invalidSignature
  | acknowledged
deriving DecidableEq, Repr

/-- `paystackWebhook`: reject unless the signature matches; on a
`charge.success` event, find the wallet holding the reference and, if the
matching transaction is still `pending`, mark it `completed` and add the
payload's `amount / 100` to the balance. -/
def paystackWebhook (digest : WebhookPayload → String) (payload : WebhookPayload)
    (signature : String) (s : AppState) : WebhookResult × AppState :=
  if ¬ verifyWebhookSignature digest payload signature then (.invalidSignature, s)
  else if payload.event = "charge.success" then
    match s.wallets.find? (walletHasRef payload.reference) with
    | none => (.acknowledged, s)
    | some w =>
      match w.transactions.find? (fun t => decide (t.reference = payload.reference)) with
      | none => (.acknowledged, s)
      | some t =>
        if t.status = .pending then
          let w' : Wallet :=
            { w with balance := w.balance + payload.amount / 100,
                     transactions := completeFirstTx payload.reference w.transactions }
          let ws := updateFirst (walletHasRef payload.reference) (fun _ => w') s.wallets
          (.acknowledged, { s with wallets := ws })
        else (.acknowledged, s)
  else (.acknowledged, s)

/-- The stock guard of `purchaseGift`:
`gift.stock !== undefined && gift.stock < quantity`. -/
def stockTooLow (stock : Option ℚ) (quantity : ℚ) : Bool :=
  match stock with
  | some st => decide (st < quantity)
  | none => false

inductive PurchaseResult
  | giftNotFound
  | insufficientStock
  | insufficientBalance
  | purchased (gift : Gift) (totalPrice : ℚ) (newBalance : ℚ)
deriving DecidableEq, Repr

/-- `purchaseGift`: look up the gift (404 if absent or inactive), guard
tracked stock, compute `totalPrice = price * quantity`, require an existing
wallet with sufficient balance, then debit the wallet with a `completed`
debit transaction and decrement tracked stock. -/
def purchaseGift (userId giftId : ℕ) (quantity : ℚ) (txRef : String)
    (s : AppState) : PurchaseResult × AppState :=
  match s.gifts.find? (fun g => decide (g.1 = giftId)) with
  | none => (.giftNotFound, s)
  | some entry =>
    let gift := entry.2
    if ¬ gift.isActive then (.giftNotFound, s)
    else if stockTooLow gift.stock quantity then (.insufficientStock, s)
    else
      let totalPrice := gift.price * quantity
      match s.wallets.find? (fun w => decide (w.userId = userId)) with
      | none => (.insufficientBalance, s)
      | some wallet =>
        if wallet.balance < totalPrice then (.insufficientBalance, s)
        else
          let tx : Transaction :=
            { type := .debit, amount := totalPrice, reference := txRef,
              txDescription := "Purchased " ++ gift.name, status := .completed }
          let wallet' : Wallet :=
            { wallet with balance := wallet.balance - totalPrice,
                          transactions := wallet.transactions ++ [tx] }
          let ws := updateFirst (fun w => decide (w.userId = userId)) (fun _ => wallet') s.wallets
          let s1 : AppState := { s with wallets := ws }
          match gift.stock with
          | none => (.purchased gift totalPrice wallet'.balance, s1)
          | some st =>
            let gift' : Gift := { gift with stock := some (st - quantity) }
            let gs := updateFirst (fun g => decide (g.1 = giftId)) (fun g => (g.1, gift')) s1.gifts
            (.purchased gift' totalPrice wallet'.balance, { s1 with gifts := gs })

/-- The `giftBoxSchema` pre-save hook: assign a fresh redemption code
only when the document has none. -/
def applyRedemptionCodeHook (fresh : String) (b : GiftBox) : GiftBox :=
  if b.redemptionCode = none then { b with redemptionCode := some fresh } else b

/-- The line-item merge of `addToGiftBox`: increment the quantity of the
first existing item for the gift, or push a new item stamped `now`. -/
def mergeGiftItem (giftId : ℕ) (quantity : ℚ) (now : ℕ) : List GiftBoxItem → List GiftBoxItem
  | [] => [{ giftId := giftId, quantity := quantity, purchasedAt := now }]
  | g :: gs =>
    if g.giftId = giftId then { g with quantity := g.quantity + quantity } :: gs
    else g :: mergeGiftItem giftId quantity now gs

/-- The open-box query of `addToGiftBox`:
`{senderId, ...(cardId ? {cardId} : {websiteId}), isRedeemed: false}`. -/
def openBoxQuery (userId : ℕ) (cardId websiteId : Option ℕ) (b : GiftBox) : Bool :=
  decide (b.senderId = userId) &&
    (match cardId with
     | some cid => decide (b.cardId = some cid)
     | none => decide (b.websiteId = websiteId)) &&
    !b.isRedeemed

inductive AddBoxResult
  | missingTarget
  | giftNotFound
  | cardNotFound
  | websiteNotFound
  | added (boxId : ℕ) (code : Option String)
deriving DecidableEq, Repr

/-- The validation stage of `addToGiftBox`, in source order: require a
card or website target, an active gift, and ownership of whichever target
references are present; `none` means all checks passed. -/
def addBoxCheck (userId giftId : ℕ) (cardId websiteId : Option ℕ)
    (s : AppState) : Option AddBoxResult :=
  if cardId.isNone && websiteId.isNone then some .missingTarget
  else
    match s.gifts.find? (fun g => decide (g.1 = giftId)) with
    | none => some .giftNotFound
    | some entry =>
      if ¬ entry.2.isActive then some .giftNotFound
      else if cardId.isSome &&
          (s.cards.find? (fun c => decide (cardId = some c.cardId ∧ c.userId = userId))).isNone
        then some .cardNotFound
      else if websiteId.isSome &&
          (s.websites.find? (fun v => decide (websiteId = some v.websiteId ∧ v.userId = userId))).isNone
        then some .websiteNotFound
      else none

/-- The back-link step of box creation: `Card.findByIdAndUpdate(cardId,
{giftBox})` when a card id is supplied, else the website counterpart. -/
def backLinkTarget (cardId websiteId : Option ℕ) (boxId : ℕ) (s : AppState) : AppState :=
  match cardId with
  | some cid =>
    let cs := updateFirst (fun c => decide (c.cardId = cid))
        (fun c => { c with giftBox := some boxId }) s.cards
    { s with cards := cs }
  | none =>
    match websiteId with
    | some wid =>
      let vs := updateFirst (fun v => decide (v.websiteId = wid))
          (fun v => { v with giftBox := some boxId }) s.websites
      { s with websites := vs }
    | none => s

/-- The update stage of `addToGiftBox`: find the open box for
(sender, target) or create one (the pre-save hook assigns its code) and
back-link it to the card or, otherwise, the website; then merge the line
item and save. -/
def addBoxApply (userId giftId : ℕ) (cardId websiteId : Option ℕ)
    (quantity : ℚ) (recipientEmail : Option String)
    (freshBoxId : ℕ) (freshCode : String) (now : ℕ)
    (s : AppState) : AddBoxResult × AppState :=
  match s.giftBoxes.find? (openBoxQuery userId cardId websiteId) with
  | some box =>
    let merged : GiftBox := { box with gifts := mergeGiftItem giftId quantity now box.gifts }
    let box' := applyRedemptionCodeHook freshCode merged
    let bs := updateFirst (openBoxQuery userId cardId websiteId) (fun _ => box') s.giftBoxes
    (.added box'.boxId box'.redemptionCode, { s with giftBoxes := bs })
  | none =>
    let draft : GiftBox :=
      { boxId := freshBoxId, senderId := userId, cardId := cardId,
        websiteId := websiteId, recipientEmail := recipientEmail,
        gifts := [], isRedeemed := false, redeemedAt := none,
        redemptionCode := none }
    let created := applyRedemptionCodeHook freshCode draft
    let s1 : AppState := backLinkTarget cardId websiteId created.boxId s
    let withItem : GiftBox := { created with gifts := mergeGiftItem giftId quantity now created.gifts }
    let final := applyRedemptionCodeHook freshCode withItem
    (.added final.boxId final.redemptionCode,
     { s1 with giftBoxes := s1.giftBoxes ++ [final] })

/-- `addToGiftBox`: run the validations of the handler in source order,
answering the first failure with the state unchanged, then find-or-create
the open box and merge the line item. -/
def addToGiftBox (userId giftId : ℕ) (cardId websiteId : Option ℕ)
    (quantity : ℚ) (recipientEmail : Option String)
    (freshBoxId : ℕ) (freshCode : String) (now : ℕ)
    (s : AppState) : AddBoxResult × AppState :=
  match addBoxCheck userId giftId cardId websiteId s with
  | some err => (err, s)
  | none => addBoxApply userId giftId cardId websiteId quantity recipientEmail
      freshBoxId freshCode now s

/-- The `reduce` of `redeemGiftBox` over the populated items:
`sum + gift.value * item.quantity`, left to right.  Returns `none` when a
referenced gift is missing from the catalog (in the source, `populate`
yields `null` and the reduce throws). -/
def boxTotalValue (catalog : List (ℕ × Gift)) : List GiftBoxItem → Option ℚ → Option ℚ
  | _, none => none
  | [], acc => acc
  | item :: items, some acc =>
    match catalog.find? (fun g => decide (g.1 = item.giftId)) with
    | none => none
    | some entry => boxTotalValue catalog items (some (acc + entry.2.value * item.quantity))

inductive RedeemResult
  | boxNotFound
  | alreadyRedeemed
  | valueError
  | redeemed (totalValue : ℚ) (creditedToWallet : Bool)
deriving DecidableEq, Repr

/-- `redeemGiftBox`: find the box by code; reject if already redeemed;
otherwise mark it redeemed and save, total the item values from the current
catalog, and — when a redeemer is authenticated — get-or-create their
wallet and credit the total with a `completed` credit transaction.
`valueError` models the thrown `reduce` when a referenced gift no longer
exists: the box is already saved as redeemed but no wallet is credited. -/
def redeemGiftBox (code : String) (redeemer : Option ℕ) (now : ℕ)
    (s : AppState) : RedeemResult × AppState :=
  match s.giftBoxes.find? (fun b => decide (b.redemptionCode = some code)) with
  | none => (.boxNotFound, s)
  | some box =>
    if box.isRedeemed then (.alreadyRedeemed, s)
    else
      let box' : GiftBox := { box with isRedeemed := true, redeemedAt := some now }
      let bs := updateFirst (fun b => decide (b.redemptionCode = some code)) (fun _ => box') s.giftBoxes
      let s1 : AppState := { s with giftBoxes := bs }
      match boxTotalValue s.gifts box.gifts (some 0) with
      | none => (.valueError, s1)
      | some totalValue =>
        match redeemer with
        | none => (.redeemed totalValue false, s1)
        | some uid =>
          let found := getOrCreateWallet uid s1
          let w := found.1
          let tx : Transaction :=
            { type := .credit, amount := totalValue, reference := "REDEEM_" ++ code,
              txDescription := "Gift box redemption", status := .completed }
          let w' : Wallet :=
            { w with balance := w.balance + totalValue,
                     transactions := w.transactions ++ [tx] }
          let ws := updateFirst (fun x => decide (x.userId = uid)) (fun _ => w') found.2.wallets
          (.redeemed totalValue true, { found.2 with wallets := ws })

/-- The ledger invariant of the spec: the balance equals the sum of the
`completed` credit amounts minus the sum of the `completed` debit amounts. -/
def walletBalanced (w : Wallet) : Prop :=
  w.balance = txnSum .credit .completed w.transactions - txnSum .debit .completed w.transactions

instance : DecidablePred walletBalanced := fun w => by
  unfold walletBalanced; infer_instance

/-- Every `pending` transaction of the wallet is a credit (the handlers
only ever record pending credits; settlement relies on this). -/
def pendingAreCredits (w : Wallet) : Prop :=
  ∀ t ∈ w.transactions, t.status = .pending → t.type = .credit

/-- The inductive invariant carried through the reachability proof. -/
def WalletOK (w : Wallet) : Prop := walletBalanced w ∧ pendingAreCredits w

def walletsOK (s : AppState) : Prop := ∀ w ∈ s.wallets, WalletOK w

/-- One invocation of an exposed settlement operation, with arbitrary
request parameters and arbitrary gateway responses. -/
inductive OpStep : AppState → AppState → Prop
  | fund (userId : ℕ) (amount : ℚ) (reference : String) (s : AppState) :
      OpStep s (fundWallet userId amount reference s)
  | verify (reference gwStatus : String) (gwAmount : ℚ) (s : AppState) :
      OpStep s (verifyWalletPayment reference gwStatus gwAmount s).2
  | webhook (digest : WebhookPayload → String) (payload : WebhookPayload)
      (signature : String) (s : AppState) :
      OpStep s (paystackWebhook digest payload signature s).2
  | purchase (userId giftId : ℕ) (quantity : ℚ) (txRef : String) (s : AppState) :
      OpStep s (purchaseGift userId giftId quantity txRef s).2
  | redeem (code : String) (redeemer : Option ℕ) (now : ℕ) (s : AppState) :
      OpStep s (redeemGiftBox code redeemer now s).2

/-- States reachable from a system with no wallets (the catalog, boxes,
cards and websites may hold anything) by the exposed operations. -/
inductive Reachable : AppState → Prop
  | init (gifts : List (ℕ × Gift)) (boxes : List GiftBox)
      (cards : List Card) (websites : List Website) :
      Reachable ⟨[], gifts, boxes, cards, websites⟩
  | step {s s' : AppState} : Reachable s → OpStep s s' → Reachable s'

/-- Like `OpStep`, but every processed webhook is honest: the payload's
minor-unit amount is 100 times the recorded amount of any pending
transaction bearing its reference (what Paystack reports for a charge
initialized by `fundWallet`). -/
inductive HonestStep : AppState → AppState → Prop
  | fund (userId : ℕ) (amount : ℚ) (reference : String) (s : AppState) :
      HonestStep s (fundWallet userId amount reference s)
  | verify (reference gwStatus : String) (gwAmount : ℚ) (s : AppState) :
      HonestStep s (verifyWalletPayment reference gwStatus gwAmount s).2
  | webhook (digest : WebhookPayload → String) (payload : WebhookPayload)
      (signature : String) (s : AppState)
      (honest : ∀ w ∈ s.wallets, ∀ t ∈ w.transactions,
        t.reference = payload.reference → t.status = .pending →
        payload.amount = 100 * t.amount) :
      HonestStep s (paystackWebhook digest payload signature s).2
  | purchase (userId giftId : ℕ) (quantity : ℚ) (txRef : String) (s : AppState) :
      HonestStep s (purchaseGift userId giftId quantity txRef s).2
  | redeem (code : String) (redeemer : Option ℕ) (now : ℕ) (s : AppState) :
      HonestStep s (redeemGiftBox code redeemer now s).2

/-- Reachability under honest webhooks. -/
inductive ReachableHonest : AppState → Prop
  | init (gifts : List (ℕ × Gift)) (boxes : List GiftBox)
      (cards : List Card) (websites : List Website) :
      ReachableHonest ⟨[], gifts, boxes, cards, websites⟩
  | step {s s' : AppState} : ReachableHonest s → HonestStep s s' → ReachableHonest s'

theorem mem_updateFirst {p : α → Bool} {f : α → α} {l : List α} {x : α}
    (h : x ∈ updateFirst p f l) : x ∈ l ∨ ∃ y, y ∈ l ∧ p y = true ∧ x = f y := by
  induction l with
  | nil => simp [updateFirst] at h
  | cons a as ih =>
    simp only [updateFirst] at h
    by_cases hp : p a = true
    · rw [if_pos hp] at h
      rcases List.mem_cons.mp h with h | h
      · exact Or.inr ⟨a, List.mem_cons_self a as, hp, h⟩
      · exact Or.inl (List.mem_cons_of_mem _ h)
    · rw [if_neg hp] at h
      rcases List.mem_cons.mp h with h | h
      · exact Or.inl (h ▸ List.mem_cons_self a as)
      · rcases ih h with h' | ⟨y, hy, hpy, hxy⟩
        · exact Or.inl (List.mem_cons_of_mem _ h')
        · exact Or.inr ⟨y, List.mem_cons_of_mem _ hy, hpy, hxy⟩

theorem find?_updateFirst {p : α → Bool} {f : α → α} {l : List α} {y : α}
    (h : l.find? p = some y) (hf : p (f y) = true) :
    (updateFirst p f l).find? p = some (f y) := by
  induction l with
  | nil => simp [List.find?] at h
  | cons a as ih =>
    by_cases hp : p a = true
    · rw [List.find?_cons_of_pos _ hp] at h
      cases h
      simp [updateFirst, hp, List.find?_cons_of_pos _ hf]
    · rw [List.find?_cons_of_neg _ (by simpa using hp)] at h
      simp only [updateFirst, if_neg hp]
      rw [List.find?_cons_of_neg _ (by simpa using hp)]
      exact ih h

theorem updateFirst_length {p : α → Bool} {f : α → α} (l : List α) :
    (updateFirst p f l).length = l.length := by
  induction l with
  | nil => rfl
  | cons a as ih =>
    by_cases hp : p a = true
    · simp [updateFirst, hp]
    · simp [updateFirst, hp, ih]

theorem txnSum_append (ty : TxType) (st : TxStatus) (l : List Transaction) (t : Transaction) :
    txnSum ty st (l ++ [t]) =
      txnSum ty st l + (if t.type = ty ∧ t.status = st then t.amount else 0) := by
  induction l with
  | nil => simp [txnSum]
  | cons a as ih =>
    simp only [List.cons_append, txnSum, List.append_eq]
    rw [ih]; ring

theorem completeFirstTx_cons (ref : String) (a : Transaction) (as : List Transaction) :
    completeFirstTx ref (a :: as) =
      if a.reference = ref then { a with status := .completed } :: as
      else a :: completeFirstTx ref as := by
  simp only [completeFirstTx, updateFirst, decide_eq_true_eq]

theorem txnSum_completeFirstTx {ref : String} {ts : List Transaction} {t : Transaction}
    (hfind : ts.find? (fun x => decide (x.reference = ref)) = some t)
    (hpend : t.status = .pending) (ty : TxType) :
    txnSum ty .completed (completeFirstTx ref ts) =
      txnSum ty .completed ts + (if t.type = ty then t.amount else 0) := by
  induction ts with
  | nil => simp [List.find?] at hfind
  | cons a as ih =>
    rw [completeFirstTx_cons]
    by_cases hp : a.reference = ref
    · rw [List.find?_cons_of_pos _ (by simpa using hp)] at hfind
      cases hfind
      rw [if_pos hp]
      by_cases hty : t.type = ty
      · simp [txnSum, hty, hpend, add_comm]
      · simp [txnSum, hty, hpend]
    · rw [List.find?_cons_of_neg _ (by simpa using hp)] at hfind
      rw [if_neg hp]
      simp only [txnSum]
      rw [ih hfind]
      ring

theorem pendingAreCredits_completeFirstTx {ref : String} {ts : List Transaction}
    (h : ∀ t ∈ ts, t.status = .pending → t.type = .credit) :
    ∀ t ∈ completeFirstTx ref ts, t.status = .pending → t.type = .credit := by
  intro t ht hst
  rcases mem_updateFirst ht with h' | ⟨y, hy, _, rfl⟩
  · exact h t h' hst
  · simp at hst

theorem walletOK_newWallet (userId : ℕ) :
    WalletOK { userId := userId, balance := 0, transactions := [] } := by
  constructor
  · simp [walletBalanced, txnSum]
  · intro t ht
    simp at ht

theorem walletsOK_updateFirst_const {l : List Wallet} (h : ∀ w ∈ l, WalletOK w)
    {c : Wallet} (hc : WalletOK c) (p : Wallet → Bool) :
    ∀ w ∈ updateFirst p (fun _ => c) l, WalletOK w := by
  intro x hx
  rcases mem_updateFirst hx with h' | ⟨y, _, _, rfl⟩
  · exact h x h'
  · exact hc

theorem getOrCreateWallet_spec (u : ℕ) {s : AppState} (h : walletsOK s) :
    WalletOK (getOrCreateWallet u s).1 ∧ walletsOK (getOrCreateWallet u s).2 := by
  unfold getOrCreateWallet
  cases hf : s.wallets.find? (fun w => decide (w.userId = u)) with
  | some w =>
    simp only [hf]
    exact ⟨h w (List.mem_of_find?_eq_some hf), h⟩
  | none =>
    simp only [hf]
    refine ⟨walletOK_newWallet u, ?_⟩
    intro x hx
    rcases List.mem_append.mp hx with h' | h'
    · exact h x h'
    · rw [List.mem_singleton.mp h']
      exact walletOK_newWallet u

theorem walletOK_appendPending {w : Wallet} (h : WalletOK w) (a : ℚ) (ref d : String) :
    WalletOK { w with transactions := w.transactions ++
      [{ type := .credit, amount := a, reference := ref, txDescription := d,
         status := .pending }] } := by
  obtain ⟨hb, hp⟩ := h
  constructor
  · unfold walletBalanced at hb ⊢
    simp only [txnSum_append]
    simp [hb]
  · intro t ht hst
    rcases List.mem_append.mp ht with h' | h'
    · exact hp t h' hst
    · rw [List.mem_singleton.mp h']

theorem walletOK_creditCompleted {w : Wallet} (h : WalletOK w) (a : ℚ) (ref d : String) :
    WalletOK { w with balance := w.balance + a,
                      transactions := w.transactions ++
                 [{ type := .credit, amount := a, reference := ref,
                    txDescription := d, status := .completed }] } := by
  obtain ⟨hb, hp⟩ := h
  constructor
  · unfold walletBalanced at hb ⊢
    simp only [txnSum_append]
    simp [hb]
    ring
  · intro t ht hst
    rcases List.mem_append.mp ht with h' | h'
    · exact hp t h' hst
    · rw [List.mem_singleton.mp h'] at hst
      simp at hst

theorem walletOK_debitCompleted {w : Wallet} (h : WalletOK w) (a : ℚ) (ref d : String) :
    WalletOK { w with balance := w.balance - a,
                      transactions := w.transactions ++
                 [{ type := .debit, amount := a, reference := ref,
                    txDescription := d, status := .completed }] } := by
  obtain ⟨hb, hp⟩ := h
  constructor
  · unfold walletBalanced at hb ⊢
    simp only [txnSum_append]
    simp [hb]
    ring
  · intro t ht hst
    rcases List.mem_append.mp ht with h' | h'
    · exact hp t h' hst
    · rw [List.mem_singleton.mp h'] at hst
      simp at hst

theorem walletOK_settle {w : Wallet} {ref : String} {t : Transaction}
    (h : WalletOK w)
    (hfind : w.transactions.find? (fun x => decide (x.reference = ref)) = some t)
    (hpend : t.status = .pending) :
    WalletOK { w with balance := w.balance + t.amount,
                      transactions := completeFirstTx ref w.transactions } := by
  obtain ⟨hb, hp⟩ := h
  have hcred : t.type = .credit := hp t (List.mem_of_find?_eq_some hfind) hpend
  constructor
  · unfold walletBalanced at hb ⊢
    rw [txnSum_completeFirstTx hfind hpend .credit, txnSum_completeFirstTx hfind hpend .debit]
    simp [hcred, hb]
    ring
  · exact pendingAreCredits_completeFirstTx hp

theorem walletsOK_fundWallet {s : AppState} (h : walletsOK s) (u : ℕ) (a : ℚ)
    (ref : String) : walletsOK (fundWallet u a ref s) := by
  obtain ⟨h1, h2⟩ := getOrCreateWallet_spec u h
  unfold fundWallet
  exact walletsOK_updateFirst_const h2 (walletOK_appendPending h1 a ref _) _

theorem walletsOK_verify {s : AppState} (h : walletsOK s) (ref gwStatus : String)
    (gwA : ℚ) : walletsOK (verifyWalletPayment ref gwStatus gwA s).2 := by
  unfold verifyWalletPayment
  by_cases hgw : gwStatus ≠ "success"
  · rw [if_pos hgw]; exact h
  · rw [if_neg hgw]
    cases hf : s.wallets.find? (walletHasRef ref) with
    | none => exact h
    | some w =>
      simp only
      cases hft : w.transactions.find? (fun t => decide (t.reference = ref)) with
      | none => exact h
      | some t =>
        simp only
        by_cases hst : t.status = .pending
        · rw [if_pos hst]
          exact walletsOK_updateFirst_const h
            (walletOK_settle (h w (List.mem_of_find?_eq_some hf)) hft hst) _
        · rw [if_neg hst]; exact h

theorem walletsOK_webhook_honest {s : AppState} (h : walletsOK s)
    (digest : WebhookPayload → String) (payload : WebhookPayload) (signature : String)
    (honest : ∀ w ∈ s.wallets, ∀ t ∈ w.transactions,
      t.reference = payload.reference → t.status = .pending →
      payload.amount = 100 * t.amount) :
    walletsOK (paystackWebhook digest payload signature s).2 := by
  unfold paystackWebhook
  by_cases hsig : ¬ verifyWebhookSignature digest payload signature = true
  · rw [if_pos hsig]; exact h
  · rw [if_neg hsig]
    by_cases hev : payload.event = "charge.success"
    · rw [if_pos hev]
      cases hf : s.wallets.find? (walletHasRef payload.reference) with
      | none => exact h
      | some w =>
        simp only
        cases hft : w.transactions.find? (fun t => decide (t.reference = payload.reference)) with
        | none => exact h
        | some t =>
          simp only
          by_cases hst : t.status = .pending
          · rw [if_pos hst]
            have hwmem := List.mem_of_find?_eq_some hf
            have htmem := List.mem_of_find?_eq_some hft
            have href : t.reference = payload.reference := by
              have := List.find?_some hft
              simpa using this
            have hamt : payload.amount / 100 = t.amount := by
              rw [honest w hwmem t htmem href hst]
              field_simp
            rw [hamt]
            exact walletsOK_updateFirst_const h
              (walletOK_settle (h w hwmem) hft hst) _
          · rw [if_neg hst]; exact h
    · rw [if_neg hev]; exact h

theorem walletsOK_purchase {s : AppState} (h : walletsOK s) (u gid : ℕ) (q : ℚ)
    (txRef : String) : walletsOK (purchaseGift u gid q txRef s).2 := by
  unfold purchaseGift
  cases hg : s.gifts.find? (fun g => decide (g.1 = gid)) with
  | none => exact h
  | some entry =>
    simp only
    by_cases hact : ¬ entry.2.isActive = true
    · rw [if_pos hact]; exact h
    · rw [if_neg hact]
      by_cases hstock : stockTooLow entry.2.stock q = true
      · rw [if_pos hstock]; exact h
      · rw [if_neg hstock]
        cases hw : s.wallets.find? (fun w => decide (w.userId = u)) with
        | none => exact h
        | some wallet =>
          simp only
          by_cases hbal : wallet.balance < entry.2.price * q
          · rw [if_pos hbal]; exact h
          · rw [if_neg hbal]
            have hok := walletsOK_updateFirst_const h
              (walletOK_debitCompleted (h wallet (List.mem_of_find?_eq_some hw))
                (entry.2.price * q) txRef ("Purchased " ++ entry.2.name))
              (fun w => decide (w.userId = u))
            cases entry.2.stock with
            | none => exact hok
            | some st => exact hok

theorem walletsOK_setGiftBoxes {s : AppState} (h : walletsOK s) (bs : List GiftBox) :
    walletsOK { s with giftBoxes := bs } := h

theorem walletsOK_redeem {s : AppState} (h : walletsOK s) (code : String)
    (redeemer : Option ℕ) (now : ℕ) :
    walletsOK (redeemGiftBox code redeemer now s).2 := by
  unfold redeemGiftBox
  cases hb : s.giftBoxes.find? (fun b => decide (b.redemptionCode = some code)) with
  | none => exact h
  | some box =>
    simp only
    by_cases hred : box.isRedeemed = true
    · rw [if_pos hred]; exact h
    · rw [if_neg hred]
      cases hv : boxTotalValue s.gifts box.gifts (some 0) with
      | none => exact walletsOK_setGiftBoxes h _
      | some totalValue =>
        simp only
        cases redeemer with
        | none => exact walletsOK_setGiftBoxes h _
        | some uid =>
          simp only
          obtain ⟨hw1, hw2⟩ := getOrCreateWallet_spec uid (walletsOK_setGiftBoxes h
            (updateFirst (fun b => decide (b.redemptionCode = some code))
              (fun _ => { box with isRedeemed := true, redeemedAt := some now }) s.giftBoxes))
          exact walletsOK_updateFirst_const hw2
            (walletOK_creditCompleted hw1 totalValue ("REDEEM_" ++ code)
              "Gift box redemption") _

theorem reachableHonest_walletsOK {s : AppState} (h : ReachableHonest s) :
    walletsOK s := by
  induction h with
  | init gifts boxes cards websites =>
    intro w hw
    simp at hw
  | step _ hstep ih =>
    cases hstep with
    | fund u a ref s => exact walletsOK_fundWallet ih u a ref
    | verify ref gwStatus gwA s => exact walletsOK_verify ih ref gwStatus gwA
    | webhook digest payload signature s honest =>
      exact walletsOK_webhook_honest ih digest payload signature honest
    | purchase u gid q txRef s => exact walletsOK_purchase ih u gid q txRef
    | redeem code redeemer now s => exact walletsOK_redeem ih code redeemer now

/-- The state used against claim C1 as stated: fund wallet of user 1 with
amount 5 under reference "R", then process a signed `charge.success`
webhook for the same reference whose payload reports 700 minor units. -/
def mismatchedWebhookState : AppState :=
  (paystackWebhook (fun _ => "SIG") ⟨"charge.success", "R", 700⟩ "SIG"
    (fundWallet 1 5 "R" ⟨[], [], [], [], []⟩)).2

/-- The wallet that results: balance 0 + 700 / 100 = 7 (the webhook
credited the payload amount over 100) against a single completed credit
transaction of amount 5. -/
def mismatchedWallet : Wallet :=
  ⟨1, 0 + 700 / 100, [⟨.credit, 5, "R", "Wallet funding", .completed⟩]⟩

/-- C1, counterexample to the claim as stated: a state reachable by the
exposed operations (fundWallet then paystackWebhook with a validly signed
payload whose amount is not 100 times the pending transaction's amount)
contains a wallet whose balance is not the sum of completed credits minus
completed debits: `paystackWebhook` credits the payload's `amount / 100`,
not the recorded transaction amount. -/
theorem c1_balance_counterexample :
    Reachable mismatchedWebhookState ∧
    mismatchedWallet ∈ mismatchedWebhookState.wallets ∧
    ¬ walletBalanced mismatchedWallet := by
  refine ⟨?_, ?_, ?_⟩
  · exact Reachable.step
      (Reachable.step (Reachable.init [] [] [] []) (OpStep.fund 1 5 "R" _))
      (OpStep.webhook (fun _ => "SIG") ⟨"charge.success", "R", 700⟩ "SIG" _)
  · rw [show mismatchedWebhookState.wallets = [mismatchedWallet] from rfl]
    exact List.mem_singleton.mpr rfl
  · simp [walletBalanced, mismatchedWallet, txnSum]
    norm_num

/-- C1 (amended): in every state reachable by the exposed operations
(fundWallet, verifyWalletPayment, paystackWebhook, purchaseGift,
redeemGiftBox) in which every processed `charge.success` webhook payload
carries 100 times the recorded amount of any pending transaction with its
reference, every wallet's balance equals the sum of the amounts of its
completed credit transactions minus the sum of the amounts of its
completed debit transactions; pending and failed transactions contribute
nothing. -/
theorem c1_balance_invariant {s : AppState} (h : ReachableHonest s) :
    ∀ w ∈ s.wallets, walletBalanced w :=
  fun w hw => (reachableHonest_walletsOK h w hw).1

/-- C1 witness: the amended invariant instantiated on the concrete state
reached by funding wallet 1 with amount 5 from the initial state. -/
theorem c1_balance_invariant_witness :
    walletBalanced ⟨1, 0, [⟨.credit, 5, "R", "Wallet funding", .pending⟩]⟩ :=
  c1_balance_invariant
    (ReachableHonest.step (ReachableHonest.init [] [] [] [])
      (HonestStep.fund 1 5 "R" ⟨[], [], [], [], []⟩))
    ⟨1, 0, [⟨.credit, 5, "R", "Wallet funding", .pending⟩]⟩ (by decide)

theorem any_updateFirst {p q : α → Bool} {f : α → α} {l : List α}
    (hf : ∀ x, q (f x) = q x) (h : l.any q = true) :
    (updateFirst p f l).any q = true := by
  induction l with
  | nil => simp at h
  | cons a as ih =>
    by_cases hp : p a = true
    · simp only [updateFirst, if_pos hp, List.any_cons, Bool.or_eq_true] at h ⊢
      rcases h with h | h
      · exact Or.inl (by rw [hf]; exact h)
      · exact Or.inr h
    · simp only [updateFirst, if_neg hp, List.any_cons, Bool.or_eq_true] at h ⊢
      rcases h with h | h
      · exact Or.inl h
      · exact Or.inr (ih h)

theorem walletHasRef_of_find? {ref : String} {w : Wallet} {t : Transaction}
    (h : w.transactions.find? (fun x => decide (x.reference = ref)) = some t) :
    walletHasRef ref w = true := by
  unfold walletHasRef
  rw [List.any_eq_true]
  have hp := List.find?_some h
  exact ⟨t, List.mem_of_find?_eq_some h, hp⟩

theorem walletHasRef_settled {ref : String} {w : Wallet} (b : ℚ)
    (h : walletHasRef ref w = true) :
    walletHasRef ref { w with balance := b,
                              transactions := completeFirstTx ref w.transactions } = true := by
  unfold walletHasRef at h ⊢
  exact any_updateFirst (fun x => rfl) h

theorem completeFirstTx_find? {ref : String} {ts : List Transaction} {t : Transaction}
    (h : ts.find? (fun x => decide (x.reference = ref)) = some t) :
    (completeFirstTx ref ts).find? (fun x => decide (x.reference = ref)) =
      some { t with status := .completed } := by
  apply find?_updateFirst h
  have := List.find?_some h
  simpa using this

theorem verify_noop_of_no_wallet {s : AppState} {ref : String} (gw : String) (ga : ℚ)
    (hw : s.wallets.find? (walletHasRef ref) = none) :
    (verifyWalletPayment ref gw ga s).2 = s := by
  unfold verifyWalletPayment
  by_cases hgw : gw ≠ "success"
  · rw [if_pos hgw]
  · rw [if_neg hgw, hw]

theorem verify_noop_of_no_tx {s : AppState} {ref : String} {w : Wallet} (gw : String) (ga : ℚ)
    (hw : s.wallets.find? (walletHasRef ref) = some w)
    (ht : w.transactions.find? (fun x => decide (x.reference = ref)) = none) :
    (verifyWalletPayment ref gw ga s).2 = s := by
  unfold verifyWalletPayment
  by_cases hgw : gw ≠ "success"
  · rw [if_pos hgw]
  · rw [if_neg hgw, hw]
    simp only
    rw [ht]

theorem verify_noop_of_settled {s : AppState} {ref : String} {w : Wallet} {t : Transaction}
    (gw : String) (ga : ℚ)
    (hw : s.wallets.find? (walletHasRef ref) = some w)
    (ht : w.transactions.find? (fun x => decide (x.reference = ref)) = some t)
    (hst : t.status ≠ .pending) :
    (verifyWalletPayment ref gw ga s).2 = s := by
  unfold verifyWalletPayment
  by_cases hgw : gw ≠ "success"
  · rw [if_pos hgw]
  · rw [if_neg hgw, hw]
    simp only
    rw [ht]
    simp only
    rw [if_neg hst]

theorem webhook_noop_of_no_wallet {s : AppState} {payload : WebhookPayload}
    (digest : WebhookPayload → String) (sig : String)
    (hw : s.wallets.find? (walletHasRef payload.reference) = none) :
    (paystackWebhook digest payload sig s).2 = s := by
  unfold paystackWebhook
  by_cases hsig : ¬ verifyWebhookSignature digest payload sig = true
  · rw [if_pos hsig]
  · rw [if_neg hsig]
    by_cases hev : payload.event = "charge.success"
    · rw [if_pos hev, hw]
    · rw [if_neg hev]

theorem webhook_noop_of_no_tx {s : AppState} {payload : WebhookPayload} {w : Wallet}
    (digest : WebhookPayload → String) (sig : String)
    (hw : s.wallets.find? (walletHasRef payload.reference) = some w)
    (ht : w.transactions.find? (fun x => decide (x.reference = payload.reference)) = none) :
    (paystackWebhook digest payload sig s).2 = s := by
  unfold paystackWebhook
  by_cases hsig : ¬ verifyWebhookSignature digest payload sig = true
  · rw [if_pos hsig]
  · rw [if_neg hsig]
    by_cases hev : payload.event = "charge.success"
    · rw [if_pos hev, hw]
      simp only
      rw [ht]
    · rw [if_neg hev]

theorem webhook_noop_of_settled {s : AppState} {payload : WebhookPayload} {w : Wallet}
    {t : Transaction} (digest : WebhookPayload → String) (sig : String)
    (hw : s.wallets.find? (walletHasRef payload.reference) = some w)
    (ht : w.transactions.find? (fun x => decide (x.reference = payload.reference)) = some t)
    (hst : t.status ≠ .pending) :
    (paystackWebhook digest payload sig s).2 = s := by
  unfold paystackWebhook
  by_cases hsig : ¬ verifyWebhookSignature digest payload sig = true
  · rw [if_pos hsig]
  · rw [if_neg hsig]
    by_cases hev : payload.event = "charge.success"
    · rw [if_pos hev, hw]
      simp only
      rw [ht]
      simp only
      rw [if_neg hst]
    · rw [if_neg hev]

theorem webhook_after_verify (s : AppState) (ref : String) (ga amt : ℚ)
    (digest : WebhookPayload → String) (sig ev : String) :
    (paystackWebhook digest ⟨ev, ref, amt⟩ sig
        (verifyWalletPayment ref "success" ga s).2).2 =
      (verifyWalletPayment ref "success" ga s).2 := by
  unfold verifyWalletPayment
  rw [if_neg (by simp)]
  cases hw : s.wallets.find? (walletHasRef ref) with
  | none =>
    simp only
    exact webhook_noop_of_no_wallet digest sig hw
  | some w =>
    simp only
    cases ht : w.transactions.find? (fun x => decide (x.reference = ref)) with
    | none =>
      simp only
      exact webhook_noop_of_no_tx digest sig hw ht
    | some t =>
      simp only
      by_cases hst : t.status = .pending
      · rw [if_pos hst]
        simp only
        have hfw := @find?_updateFirst _ (walletHasRef ref)
          (fun _ => { w with balance := w.balance + t.amount,
                             transactions := completeFirstTx ref w.transactions })
          s.wallets w hw
          (walletHasRef_settled (w.balance + t.amount) (walletHasRef_of_find? ht))
        have hft := completeFirstTx_find? ht
        exact @webhook_noop_of_settled _ ⟨ev, ref, amt⟩ _ _ digest sig hfw hft (by simp)
      · rw [if_neg hst]
        simp only
        exact @webhook_noop_of_settled _ ⟨ev, ref, amt⟩ _ _ digest sig hw ht hst

theorem verify_after_webhook (s : AppState) (payload : WebhookPayload)
    (digest : WebhookPayload → String) (sig gw : String) (ga : ℚ)
    (hsig : verifyWebhookSignature digest payload sig = true)
    (hev : payload.event = "charge.success") :
    (verifyWalletPayment payload.reference gw ga
        (paystackWebhook digest payload sig s).2).2 =
      (paystackWebhook digest payload sig s).2 := by
  unfold paystackWebhook
  rw [if_neg (by simp [hsig]), if_pos hev]
  cases hw : s.wallets.find? (walletHasRef payload.reference) with
  | none =>
    simp only
    exact verify_noop_of_no_wallet gw ga hw
  | some w =>
    simp only
    cases ht : w.transactions.find? (fun x => decide (x.reference = payload.reference)) with
    | none =>
      simp only
      exact verify_noop_of_no_tx gw ga hw ht
    | some t =>
      simp only
      by_cases hst : t.status = .pending
      · rw [if_pos hst]
        simp only
        have hfw := @find?_updateFirst _ (walletHasRef payload.reference)
          (fun _ => { w with balance := w.balance + payload.amount / 100,
                             transactions := completeFirstTx payload.reference w.transactions })
          s.wallets w hw
          (walletHasRef_settled (w.balance + payload.amount / 100) (walletHasRef_of_find? ht))
        have hft := completeFirstTx_find? ht
        exact verify_noop_of_settled gw ga hfw hft (by simp)
      · rw [if_neg hst]
        simp only
        exact verify_noop_of_settled gw ga hw ht hst

/-- C8: the webhook settles a payment only when the digest of the payload
equals the supplied signature header: any payload whose digest differs
from the signature (in particular, a body altered while the original
signature header is kept) is rejected with `invalidSignature` (HTTP 400)
and the state — every wallet balance and transaction status — is
unchanged. -/
theorem c8_webhook_signature (digest : WebhookPayload → String)
    (signedPayload tampered : WebhookPayload) (s : AppState)
    (hne : digest tampered ≠ digest signedPayload) :
    paystackWebhook digest tampered (digest signedPayload) s =
      (.invalidSignature, s) := by
  unfold paystackWebhook
  rw [if_pos]
  simp [verifyWebhookSignature, hne]

/-- C8 witness: a digest function separating two payloads, the second
payload submitted with the first one's signature, on the empty state. -/
theorem c8_webhook_signature_witness :
    paystackWebhook (fun p => p.reference) ⟨"charge.success", "B", 1⟩ "A"
      ⟨[], [], [], [], []⟩ = (.invalidSignature, ⟨[], [], [], [], []⟩) :=
  c8_webhook_signature (fun p => p.reference) ⟨"charge.success", "A", 1⟩
    ⟨"charge.success", "B", 1⟩ ⟨[], [], [], [], []⟩ (by decide)

/-- C9: settlement happens at most once and only from `pending`.
Part 1: a verify call whose reference matches an already non-pending
transaction leaves the state unchanged.  Part 2: likewise for a webhook.
Part 3: a webhook arriving after a successful verify for the same
reference never changes the state again.  Part 4: a verify arriving after
a validly signed `charge.success` webhook for the same reference never
changes the state again — so a verify call and a webhook for one
reference apply exactly one balance credit. -/
theorem c9_settle_once :
    (∀ (s : AppState) (ref gw : String) (ga : ℚ) (w : Wallet) (t : Transaction),
        s.wallets.find? (walletHasRef ref) = some w →
        w.transactions.find? (fun x => decide (x.reference = ref)) = some t →
        t.status ≠ .pending → (verifyWalletPayment ref gw ga s).2 = s) ∧
    (∀ (s : AppState) (digest : WebhookPayload → String) (payload : WebhookPayload)
        (sig : String) (w : Wallet) (t : Transaction),
        s.wallets.find? (walletHasRef payload.reference) = some w →
        w.transactions.find? (fun x => decide (x.reference = payload.reference)) = some t →
        t.status ≠ .pending → (paystackWebhook digest payload sig s).2 = s) ∧
    (∀ (s : AppState) (ref : String) (ga amt : ℚ)
        (digest : WebhookPayload → String) (sig ev : String),
        (paystackWebhook digest ⟨ev, ref, amt⟩ sig
            (verifyWalletPayment ref "success" ga s).2).2 =
          (verifyWalletPayment ref "success" ga s).2) ∧
    (∀ (s : AppState) (payload : WebhookPayload) (digest : WebhookPayload → String)
        (sig gw : String) (ga : ℚ),
        verifyWebhookSignature digest payload sig = true →
        payload.event = "charge.success" →
        (verifyWalletPayment payload.reference gw ga
            (paystackWebhook digest payload sig s).2).2 =
          (paystackWebhook digest payload sig s).2) :=
  ⟨fun _ _ gw ga _ _ hw ht hst => verify_noop_of_settled gw ga hw ht hst,
   fun _ digest _ sig _ _ hw ht hst => webhook_noop_of_settled digest sig hw ht hst,
   webhook_after_verify,
   fun s payload digest sig gw ga hsig hev =>
     verify_after_webhook s payload digest sig gw ga hsig hev⟩

/-- C9 witness: the four parts instantiated on concrete one-wallet states:
a completed transaction is untouched by verify and by webhook, and after a
settling verify (resp. webhook) the other channel is a no-op. -/
theorem c9_settle_once_witness :
    ((verifyWalletPayment "R" "success" 500
        ⟨[⟨1, 5, [⟨.credit, 5, "R", "d", .completed⟩]⟩], [], [], [], []⟩).2 =
      ⟨[⟨1, 5, [⟨.credit, 5, "R", "d", .completed⟩]⟩], [], [], [], []⟩) ∧
    ((paystackWebhook (fun _ => "S") ⟨"charge.success", "R", 500⟩ "S"
        ⟨[⟨1, 5, [⟨.credit, 5, "R", "d", .completed⟩]⟩], [], [], [], []⟩).2 =
      ⟨[⟨1, 5, [⟨.credit, 5, "R", "d", .completed⟩]⟩], [], [], [], []⟩) ∧
    ((paystackWebhook (fun _ => "S") ⟨"charge.success", "R", 500⟩ "S"
        (verifyWalletPayment "R" "success" 500
          ⟨[⟨1, 0, [⟨.credit, 5, "R", "d", .pending⟩]⟩], [], [], [], []⟩).2).2 =
      (verifyWalletPayment "R" "success" 500
        ⟨[⟨1, 0, [⟨.credit, 5, "R", "d", .pending⟩]⟩], [], [], [], []⟩).2) ∧
    ((verifyWalletPayment "R" "success" 500
        (paystackWebhook (fun _ => "S") ⟨"charge.success", "R", 500⟩ "S"
          ⟨[⟨1, 0, [⟨.credit, 5, "R", "d", .pending⟩]⟩], [], [], [], []⟩).2).2 =
      (paystackWebhook (fun _ => "S") ⟨"charge.success", "R", 500⟩ "S"
        ⟨[⟨1, 0, [⟨.credit, 5, "R", "d", .pending⟩]⟩], [], [], [], []⟩).2) :=
  ⟨c9_settle_once.1 _ "R" "success" 500 _ _ rfl rfl (by decide),
   c9_settle_once.2.1 _ (fun _ => "S") ⟨"charge.success", "R", 500⟩ "S" _ _ rfl rfl (by decide),
   c9_settle_once.2.2.1 _ "R" 500 500 (fun _ => "S") "S" "charge.success",
   c9_settle_once.2.2.2 _ ⟨"charge.success", "R", 500⟩ (fun _ => "S") "S" "success" 500
     (by decide) rfl⟩

theorem getOrCreateWallet_giftBoxes (u : ℕ) (s : AppState) :
    (getOrCreateWallet u s).2.giftBoxes = s.giftBoxes := by
  unfold getOrCreateWallet
  cases hf : s.wallets.find? (fun w => decide (w.userId = u)) with
  | none => rfl
  | some w => rfl

theorem redeem_noop_of_redeemed {s : AppState} {code : String} {box : GiftBox}
    (redeemer : Option ℕ) (now : ℕ)
    (hb : s.giftBoxes.find? (fun b => decide (b.redemptionCode = some code)) = some box)
    (hred : box.isRedeemed = true) :
    redeemGiftBox code redeemer now s = (.alreadyRedeemed, s) := by
  unfold redeemGiftBox
  rw [hb]
  simp only
  rw [if_pos hred]

theorem redeem_marks_box {s : AppState} {code : String} {box : GiftBox}
    (r : Option ℕ) (n : ℕ)
    (hb : s.giftBoxes.find? (fun b => decide (b.redemptionCode = some code)) = some box)
    (hred : ¬ box.isRedeemed = true) :
    (redeemGiftBox code r n s).2.giftBoxes.find?
        (fun b => decide (b.redemptionCode = some code)) =
      some { box with isRedeemed := true, redeemedAt := some n } := by
  have hq : (fun b => decide (b.redemptionCode = some code))
      ({ box with isRedeemed := true, redeemedAt := some n } : GiftBox) = true := by
    have := List.find?_some hb
    simpa using this
  have hfind2 := @find?_updateFirst _ (fun b => decide (b.redemptionCode = some code))
    (fun _ => { box with isRedeemed := true, redeemedAt := some n })
    s.giftBoxes box hb hq
  unfold redeemGiftBox
  rw [hb]
  simp only
  rw [if_neg hred]
  cases hv : boxTotalValue s.gifts box.gifts (some 0) with
  | none => exact hfind2
  | some totalValue =>
    simp only
    cases r with
    | none => exact hfind2
    | some uid =>
      simp only
      rw [getOrCreateWallet_giftBoxes]
      exact hfind2

/-- C2: redemption is idempotent by rejection.  Part 1: a redeem call whose
code finds a box already marked redeemed answers `alreadyRedeemed` and
changes neither the box nor any wallet.  Part 2: after any redeem call
that succeeds, a second redeem call with the same code (by any redeemer)
answers `alreadyRedeemed` and leaves the state — in particular every
wallet balance — unchanged, so two successive calls credit exactly once. -/
theorem c2_redeem_idempotent :
    (∀ (s : AppState) (code : String) (redeemer : Option ℕ) (now : ℕ) (box : GiftBox),
        s.giftBoxes.find? (fun b => decide (b.redemptionCode = some code)) = some box →
        box.isRedeemed = true →
        redeemGiftBox code redeemer now s = (.alreadyRedeemed, s)) ∧
    (∀ (s : AppState) (code : String) (r1 r2 : Option ℕ) (n1 n2 : ℕ) (tv : ℚ) (cr : Bool),
        (redeemGiftBox code r1 n1 s).1 = .redeemed tv cr →
        redeemGiftBox code r2 n2 (redeemGiftBox code r1 n1 s).2 =
          (.alreadyRedeemed, (redeemGiftBox code r1 n1 s).2)) := by
  constructor
  · intro s code redeemer now box hb hred
    exact redeem_noop_of_redeemed redeemer now hb hred
  · intro s code r1 r2 n1 n2 tv cr h1
    cases hb : s.giftBoxes.find? (fun b => decide (b.redemptionCode = some code)) with
    | none =>
      unfold redeemGiftBox at h1
      rw [hb] at h1
      simp at h1
    | some box =>
      by_cases hred : box.isRedeemed = true
      · unfold redeemGiftBox at h1
        rw [hb] at h1
        simp only at h1
        rw [if_pos hred] at h1
        simp at h1
      · exact redeem_noop_of_redeemed r2 n2 (redeem_marks_box r1 n1 hb hred) rfl

/-- C2 witness: a one-box state.  The box redeemed flag set: the call
rejects.  An open box with one item (gift value 200, quantity 2) redeemed
by user 7, then redeemed again: the second call rejects on the state left
by the first. -/
theorem c2_redeem_idempotent_witness :
    (redeemGiftBox "CODE" (some 7) 3
        ⟨[], [(1, ⟨"g", 200, 100, true, none⟩)],
         [⟨5, 2, some 9, none, none, [⟨1, 2, 0⟩], true, some 1, some "CODE"⟩], [], []⟩ =
      (.alreadyRedeemed,
        ⟨[], [(1, ⟨"g", 200, 100, true, none⟩)],
         [⟨5, 2, some 9, none, none, [⟨1, 2, 0⟩], true, some 1, some "CODE"⟩], [], []⟩)) ∧
    (redeemGiftBox "CODE" (some 7) 4
        (redeemGiftBox "CODE" (some 7) 3
          ⟨[], [(1, ⟨"g", 200, 100, true, none⟩)],
           [⟨5, 2, some 9, none, none, [⟨1, 2, 0⟩], false, none, some "CODE"⟩], [], []⟩).2 =
      (.alreadyRedeemed,
        (redeemGiftBox "CODE" (some 7) 3
          ⟨[], [(1, ⟨"g", 200, 100, true, none⟩)],
           [⟨5, 2, some 9, none, none, [⟨1, 2, 0⟩], false, none, some "CODE"⟩], [], []⟩).2)) :=
  ⟨c2_redeem_idempotent.1 _ "CODE" (some 7) 3
      ⟨5, 2, some 9, none, none, [⟨1, 2, 0⟩], true, some 1, some "CODE"⟩ rfl rfl,
   c2_redeem_idempotent.2 _ "CODE" (some 7) (some 7) 3 4 (0 + 200 * 2) true rfl⟩

/-- C3: purchase with an active gift, sufficient tracked stock and an
existing wallet: if the balance covers `price * quantity` the call returns
`purchased` with `totalPrice = price * quantity` and
`newBalance = balance - totalPrice`, the wallet gains one completed debit
transaction of that amount and its balance drops by exactly it, and
tracked stock drops by exactly `quantity`; if the balance is short the
call fails with the insufficient-balance error and the state is
unchanged. -/
theorem c3_purchase_correct (s : AppState) (u gid : ℕ) (q : ℚ) (txRef : String)
    (g : Gift) (w : Wallet)
    (h1 : s.gifts.find? (fun x => decide (x.1 = gid)) = some (gid, g))
    (h2 : g.isActive = true)
    (h3 : stockTooLow g.stock q = false)
    (h4 : s.wallets.find? (fun x => decide (x.userId = u)) = some w) :
    (¬ w.balance < g.price * q →
      (purchaseGift u gid q txRef s).1 =
          .purchased (match g.stock with
                      | none => g
                      | some st => { g with stock := some (st - q) })
            (g.price * q) (w.balance - g.price * q) ∧
        (purchaseGift u gid q txRef s).2.wallets.find? (fun x => decide (x.userId = u)) =
          some { w with balance := w.balance - g.price * q,
                        transactions := w.transactions ++
                          [⟨.debit, g.price * q, txRef, "Purchased " ++ g.name, .completed⟩] } ∧
        (purchaseGift u gid q txRef s).2.gifts.find? (fun x => decide (x.1 = gid)) =
          some (gid, match g.stock with
                     | none => g
                     | some st => { g with stock := some (st - q) })) ∧
    (w.balance < g.price * q →
      (purchaseGift u gid q txRef s).1 = .insufficientBalance ∧
        (purchaseGift u gid q txRef s).2 = s) := by
  unfold purchaseGift
  rw [h1]
  simp only
  rw [if_neg (by simp [h2]), if_neg (by simp [h3]), h4]
  simp only
  constructor
  · intro h5
    rw [if_neg h5]
    cases hst : g.stock with
    | none =>
      simp only
      refine ⟨trivial, ?_, h1⟩
      exact @find?_updateFirst _ (fun x => decide (x.userId = u))
        (fun _ => { w with balance := w.balance - g.price * q,
                           transactions := w.transactions ++
                             [⟨.debit, g.price * q, txRef, "Purchased " ++ g.name, .completed⟩] })
        s.wallets w h4 (by have hh := List.find?_some h4; exact hh)
    | some st =>
      simp only
      refine ⟨trivial, ?_, ?_⟩
      · exact @find?_updateFirst _ (fun x => decide (x.userId = u))
          (fun _ => { w with balance := w.balance - g.price * q,
                             transactions := w.transactions ++
                               [⟨.debit, g.price * q, txRef, "Purchased " ++ g.name, .completed⟩] })
          s.wallets w h4 (by have hh := List.find?_some h4; exact hh)
      · exact @find?_updateFirst _ (fun x => decide (x.1 = gid))
          (fun x => (x.1, { g with stock := some (st - q) })) s.gifts (gid, g) h1
          (by have hh := List.find?_some h1; exact hh)
  · intro h5
    rw [if_pos h5]
    exact ⟨rfl, rfl⟩

/-- C3 witness: the spec's end-to-end scenario — catalog gift "Coffee
Voucher" price 500, value 1000, stock 3; a wallet with balance 1000 buys
quantity 1: debit 500, balance 1000 - 500, stock 3 - 1; and a wallet with
balance 100 fails with the insufficient-balance error, state unchanged. -/
theorem c3_purchase_correct_witness :
    ((purchaseGift 7 1 1 "GIFT_1"
        ⟨[⟨7, 1000, []⟩], [(1, ⟨"Coffee Voucher", 1000, 500, true, some 3⟩)], [], [], []⟩).1 =
      .purchased ⟨"Coffee Voucher", 1000, 500, true, some (3 - 1)⟩ (500 * 1) (1000 - 500 * 1) ∧
     (purchaseGift 7 1 1 "GIFT_1"
        ⟨[⟨7, 1000, []⟩], [(1, ⟨"Coffee Voucher", 1000, 500, true, some 3⟩)], [], [], []⟩).2.wallets.find?
          (fun x => decide (x.userId = 7)) =
      some ⟨7, 1000 - 500 * 1,
        [⟨.debit, 500 * 1, "GIFT_1", "Purchased " ++ "Coffee Voucher", .completed⟩]⟩ ∧
     (purchaseGift 7 1 1 "GIFT_1"
        ⟨[⟨7, 1000, []⟩], [(1, ⟨"Coffee Voucher", 1000, 500, true, some 3⟩)], [], [], []⟩).2.gifts.find?
          (fun x => decide (x.1 = 1)) =
      some (1, ⟨"Coffee Voucher", 1000, 500, true, some (3 - 1)⟩)) ∧
    ((purchaseGift 7 1 1 "GIFT_1"
        ⟨[⟨7, 100, []⟩], [(1, ⟨"Coffee Voucher", 1000, 500, true, some 3⟩)], [], [], []⟩).1 =
      .insufficientBalance ∧
     (purchaseGift 7 1 1 "GIFT_1"
        ⟨[⟨7, 100, []⟩], [(1, ⟨"Coffee Voucher", 1000, 500, true, some 3⟩)], [], [], []⟩).2 =
      ⟨[⟨7, 100, []⟩], [(1, ⟨"Coffee Voucher", 1000, 500, true, some 3⟩)], [], [], []⟩) :=
  ⟨(c3_purchase_correct
      ⟨[⟨7, 1000, []⟩], [(1, ⟨"Coffee Voucher", 1000, 500, true, some 3⟩)], [], [], []⟩
      7 1 1 "GIFT_1" ⟨"Coffee Voucher", 1000, 500, true, some 3⟩
      ⟨7, 1000, []⟩ rfl rfl (by decide) rfl).1 (by norm_num),
   (c3_purchase_correct
      ⟨[⟨7, 100, []⟩], [(1, ⟨"Coffee Voucher", 1000, 500, true, some 3⟩)], [], [], []⟩
      7 1 1 "GIFT_1" ⟨"Coffee Voucher", 1000, 500, true, some 3⟩
      ⟨7, 100, []⟩ rfl rfl (by decide) rfl).2 (by norm_num)⟩

/-- C4: tracked stock never goes negative.  Part 1: with an active gift
whose tracked stock is below the quantity, purchase fails with
`insufficientStock` and changes nothing.  Part 2: a purchase that passes
the stock and balance guards decrements tracked stock by exactly the
quantity.  Part 3: a gift with absent stock never fails the stock check
and the catalog keeps no stock value for it (the catalog is untouched).
Part 4: purchase preserves non-negativity of every tracked stock. -/
theorem c4_stock_safety :
    (∀ (s : AppState) (u gid : ℕ) (q : ℚ) (txRef : String) (g : Gift) (st : ℚ),
        s.gifts.find? (fun x => decide (x.1 = gid)) = some (gid, g) →
        g.isActive = true → g.stock = some st → st < q →
        purchaseGift u gid q txRef s = (.insufficientStock, s)) ∧
    (∀ (s : AppState) (u gid : ℕ) (q : ℚ) (txRef : String) (g : Gift) (st : ℚ) (w : Wallet),
        s.gifts.find? (fun x => decide (x.1 = gid)) = some (gid, g) →
        g.isActive = true → g.stock = some st → ¬ st < q →
        s.wallets.find? (fun x => decide (x.userId = u)) = some w →
        ¬ w.balance < g.price * q →
        (purchaseGift u gid q txRef s).2.gifts.find? (fun x => decide (x.1 = gid)) =
          some (gid, { g with stock := some (st - q) })) ∧
    (∀ (s : AppState) (u gid : ℕ) (q : ℚ) (txRef : String) (g : Gift),
        s.gifts.find? (fun x => decide (x.1 = gid)) = some (gid, g) →
        g.isActive = true → g.stock = none →
        (purchaseGift u gid q txRef s).1 ≠ .insufficientStock ∧
        (purchaseGift u gid q txRef s).2.gifts = s.gifts) ∧
    (∀ (s : AppState) (u gid : ℕ) (q : ℚ) (txRef : String),
        (∀ e ∈ s.gifts, ∀ st, e.2.stock = some st → 0 ≤ st) →
        ∀ e ∈ (purchaseGift u gid q txRef s).2.gifts, ∀ st, e.2.stock = some st → 0 ≤ st) := by
  refine ⟨?_, ?_, ?_, ?_⟩
  · intro s u gid q txRef g st h1 h2 hstock hlt
    unfold purchaseGift
    rw [h1]
    simp only
    rw [if_neg (by simp [h2]), if_pos (by simp [stockTooLow, hstock, hlt])]
  · intro s u gid q txRef g st w h1 h2 hstock hge h4 hbal
    unfold purchaseGift
    rw [h1]
    simp only
    rw [if_neg (by simp [h2]), if_neg (by simp [stockTooLow, hstock, hge]), h4]
    simp only
    rw [if_neg hbal, hstock]
    simp only
    exact @find?_updateFirst _ (fun x => decide (x.1 = gid))
      (fun x => (x.1, { g with stock := some (st - q) })) s.gifts (gid, g) h1
      (by have hh := List.find?_some h1; exact hh)
  · intro s u gid q txRef g h1 h2 hstock
    unfold purchaseGift
    rw [h1]
    simp only
    rw [if_neg (by simp [h2]), if_neg (by simp [stockTooLow, hstock])]
    cases h4 : s.wallets.find? (fun x => decide (x.userId = u)) with
    | none => exact ⟨by simp, rfl⟩
    | some w =>
      simp only
      by_cases hbal : w.balance < g.price * q
      · rw [if_pos hbal]
        exact ⟨by simp, rfl⟩
      · rw [if_neg hbal, hstock]
        exact ⟨by simp, rfl⟩
  · intro s u gid q txRef hnn
    unfold purchaseGift
    cases h1 : s.gifts.find? (fun x => decide (x.1 = gid)) with
    | none => exact hnn
    | some entry =>
      simp only
      by_cases hact : ¬ entry.2.isActive = true
      · rw [if_pos hact]; exact hnn
      · rw [if_neg hact]
        by_cases hstl : stockTooLow entry.2.stock q = true
        · rw [if_pos hstl]; exact hnn
        · rw [if_neg hstl]
          cases h4 : s.wallets.find? (fun x => decide (x.userId = u)) with
          | none => exact hnn
          | some w =>
            simp only
            by_cases hbal : w.balance < entry.2.price * q
            · rw [if_pos hbal]; exact hnn
            · rw [if_neg hbal]
              cases hstock : entry.2.stock with
              | none => exact hnn
              | some st =>
                simp only
                intro e he st' hst'
                rcases mem_updateFirst he with hold | ⟨y, hy, hpy, rfl⟩
                · exact hnn e hold st' hst'
                · simp only at hst'
                  cases hst'
                  rw [hstock] at hstl
                  unfold stockTooLow at hstl
                  simp only [decide_eq_true_eq] at hstl
                  have : q ≤ st := le_of_not_lt hstl
                  linarith

/-- C4 witness: the four parts on concrete states — an active gift with
stock 0 rejects quantity 1 with `insufficientStock` leaving the state
unchanged; the coffee-voucher purchase leaves the catalog entry with
stock 3 - 1; a stock-less gift fails only on the wallet (not the stock
check) with the catalog untouched; and non-negativity is preserved. -/
theorem c4_stock_safety_witness :
    (purchaseGift 7 1 1 "T" ⟨[], [(1, ⟨"g", 10, 5, true, some 0⟩)], [], [], []⟩ =
      (.insufficientStock, ⟨[], [(1, ⟨"g", 10, 5, true, some 0⟩)], [], [], []⟩)) ∧
    ((purchaseGift 7 1 1 "GIFT_1"
        ⟨[⟨7, 1000, []⟩], [(1, ⟨"Coffee Voucher", 1000, 500, true, some 3⟩)], [], [], []⟩).2.gifts.find?
          (fun x => decide (x.1 = 1)) =
      some (1, ⟨"Coffee Voucher", 1000, 500, true, some (3 - 1)⟩)) ∧
    ((purchaseGift 7 1 1 "T"
        ⟨[], [(1, ⟨"g", 10, 5, true, none⟩)], [], [], []⟩).1 ≠ .insufficientStock ∧
     (purchaseGift 7 1 1 "T"
        ⟨[], [(1, ⟨"g", 10, 5, true, none⟩)], [], [], []⟩).2.gifts =
      [(1, ⟨"g", 10, 5, true, none⟩)]) ∧
    ((0 : ℚ) ≤ 3) :=
  ⟨c4_stock_safety.1 _ 7 1 1 "T" ⟨"g", 10, 5, true, some 0⟩ 0 rfl rfl rfl (by norm_num),
   c4_stock_safety.2.1 _ 7 1 1 "GIFT_1" ⟨"Coffee Voucher", 1000, 500, true, some 3⟩ 3
     ⟨7, 1000, []⟩ rfl rfl rfl (by norm_num) rfl (by norm_num),
   c4_stock_safety.2.2.1 _ 7 1 1 "T" ⟨"g", 10, 5, true, none⟩ rfl rfl rfl,
   c4_stock_safety.2.2.2 ⟨[], [(1, ⟨"g", 10, 5, true, some 3⟩)], [], [], []⟩ 7 1 1 "T"
     (by
       intro e he st hst
       rw [List.mem_singleton] at he
       subst he
       simp only at hst
       cases hst
       norm_num)
     (1, ⟨"g", 10, 5, true, some 3⟩)
     (by
       rw [show (purchaseGift 7 1 1 "T"
         ⟨[], [(1, ⟨"g", 10, 5, true, some 3⟩)], [], [], []⟩).2.gifts =
           [(1, ⟨"g", 10, 5, true, some 3⟩)] from rfl]
       exact List.mem_singleton.mpr rfl)
     3 rfl⟩

theorem find?_append_left_none {p : α → Bool} {l₁ : List α} (l₂ : List α)
    (h : l₁.find? p = none) : (l₁ ++ l₂).find? p = l₂.find? p := by
  rw [List.find?_eq_none] at h
  induction l₁ with
  | nil => rfl
  | cons a as ih =>
    rw [List.cons_append, List.find?_cons_of_neg _ (h a (List.mem_cons_self a as))]
    exact ih (fun x hx => h x (List.mem_cons_of_mem a hx))

theorem find?_fresh_wallet {s : AppState} {u : ℕ}
    (hnw : s.wallets.find? (fun x => decide (x.userId = u)) = none) :
    (s.wallets ++ [({ userId := u, balance := 0, transactions := [] } : Wallet)]).find?
      (fun x => decide (x.userId = u)) =
      some { userId := u, balance := 0, transactions := [] } := by
  rw [find?_append_left_none _ hnw]
  simp [List.find?]

/-- C10, counterexample to the claim as stated: for a user with no wallet,
`purchaseGift` does not always fail with the insufficient-balance error —
an active gift with tracked stock 0 makes it fail with the
insufficient-stock error first. -/
theorem c10_no_wallet_counterexample :
    (purchaseGift 7 1 1 "T" ⟨[], [(1, ⟨"g", 10, 5, true, some 0⟩)], [], [], []⟩).1 =
      .insufficientStock ∧
    (PurchaseResult.insufficientStock ≠ PurchaseResult.insufficientBalance) := by
  constructor
  · rfl
  · simp

/-- C10 (amended): for a user with no wallet, `purchaseGift` never
succeeds and leaves the state unchanged (in particular it creates no
wallet), and it fails with the insufficient-balance error whenever the
gift exists, is active and passes the stock check (failing earlier with
the not-found or insufficient-stock error otherwise); by contrast,
`getOrCreateWallet` (used by getBalance), `fundWallet` and a successful
`redeemGiftBox` create the missing wallet lazily. -/
theorem c10_no_wallet (s : AppState) (u : ℕ)
    (hnw : s.wallets.find? (fun x => decide (x.userId = u)) = none) :
    (∀ (gid : ℕ) (q : ℚ) (txRef : String),
        (purchaseGift u gid q txRef s).2 = s ∧
        ∀ g tp nb, (purchaseGift u gid q txRef s).1 ≠ .purchased g tp nb) ∧
    (∀ (gid : ℕ) (q : ℚ) (txRef : String) (g : Gift),
        s.gifts.find? (fun x => decide (x.1 = gid)) = some (gid, g) →
        g.isActive = true → stockTooLow g.stock q = false →
        (purchaseGift u gid q txRef s).1 = .insufficientBalance) ∧
    (∀ (amount : ℚ) (ref : String),
        ((fundWallet u amount ref s).wallets.find?
          (fun x => decide (x.userId = u))).isSome) ∧
    (((getOrCreateWallet u s).2.wallets.find?
        (fun x => decide (x.userId = u))).isSome) ∧
    (∀ (code : String) (now : ℕ) (box : GiftBox) (tv : ℚ),
        s.giftBoxes.find? (fun b => decide (b.redemptionCode = some code)) = some box →
        box.isRedeemed = false →
        boxTotalValue s.gifts box.gifts (some 0) = some tv →
        ((redeemGiftBox code (some u) now s).2.wallets.find?
          (fun x => decide (x.userId = u))).isSome) := by
  refine ⟨?_, ?_, ?_, ?_, ?_⟩
  · intro gid q txRef
    unfold purchaseGift
    cases h1 : s.gifts.find? (fun x => decide (x.1 = gid)) with
    | none => exact ⟨rfl, by simp⟩
    | some entry =>
      simp only
      by_cases hact : ¬ entry.2.isActive = true
      · rw [if_pos hact]
        exact ⟨rfl, by simp⟩
      · rw [if_neg hact]
        by_cases hstl : stockTooLow entry.2.stock q = true
        · rw [if_pos hstl]
          exact ⟨rfl, by simp⟩
        · rw [if_neg hstl, hnw]
          exact ⟨rfl, by simp⟩
  · intro gid q txRef g h1 h2 h3
    unfold purchaseGift
    rw [h1]
    simp only
    rw [if_neg (by simp [h2]), if_neg (by simp [h3]), hnw]
  · intro amount ref
    unfold fundWallet getOrCreateWallet
    rw [hnw]
    simp only
    exact Option.isSome_iff_exists.mpr
      ⟨_, find?_updateFirst (find?_fresh_wallet hnw) (by simp)⟩
  · unfold getOrCreateWallet
    rw [hnw]
    simp only
    exact Option.isSome_iff_exists.mpr ⟨_, find?_fresh_wallet hnw⟩
  · intro code now box tv hbox hred hv
    unfold redeemGiftBox
    rw [hbox]
    simp only
    rw [if_neg (by simp [hred]), hv]
    simp only
    unfold getOrCreateWallet
    simp only
    rw [hnw]
    simp only
    exact Option.isSome_iff_exists.mpr
      ⟨_, find?_updateFirst (find?_fresh_wallet hnw) (by simp)⟩

/-- C10 witness: with no wallets, a purchase of a valid stock-less gift
leaves the state unchanged, is not a success, and reports the
insufficient-balance error; funding, the get-or-create used by the
balance endpoint, and an authenticated redemption each create the
missing wallet. -/
theorem c10_no_wallet_witness :
    ((purchaseGift 7 1 1 "T" ⟨[], [(1, ⟨"g", 10, 5, true, none⟩)], [], [], []⟩).2 =
      ⟨[], [(1, ⟨"g", 10, 5, true, none⟩)], [], [], []⟩) ∧
    ((purchaseGift 7 1 1 "T" ⟨[], [(1, ⟨"g", 10, 5, true, none⟩)], [], [], []⟩).1 ≠
      .purchased ⟨"g", 10, 5, true, none⟩ 5 5) ∧
    ((purchaseGift 7 1 1 "T" ⟨[], [(1, ⟨"g", 10, 5, true, none⟩)], [], [], []⟩).1 =
      .insufficientBalance) ∧
    (((fundWallet 7 100 "R" ⟨[], [(1, ⟨"g", 10, 5, true, none⟩)], [], [], []⟩).wallets.find?
        (fun x => decide (x.userId = 7))).isSome) ∧
    (((getOrCreateWallet 7 ⟨[], [(1, ⟨"g", 10, 5, true, none⟩)], [], [], []⟩).2.wallets.find?
        (fun x => decide (x.userId = 7))).isSome) ∧
    (((redeemGiftBox "CODE" (some 7) 3
        ⟨[], [(1, ⟨"g", 10, 5, true, none⟩)],
         [⟨5, 2, some 9, none, none, [⟨1, 2, 0⟩], false, none, some "CODE"⟩], [], []⟩).2.wallets.find?
          (fun x => decide (x.userId = 7))).isSome) :=
  ⟨((c10_no_wallet ⟨[], [(1, ⟨"g", 10, 5, true, none⟩)], [], [], []⟩ 7 rfl).1 1 1 "T").1,
   ((c10_no_wallet ⟨[], [(1, ⟨"g", 10, 5, true, none⟩)], [], [], []⟩ 7 rfl).1 1 1 "T").2
     ⟨"g", 10, 5, true, none⟩ 5 5,
   (c10_no_wallet ⟨[], [(1, ⟨"g", 10, 5, true, none⟩)], [], [], []⟩ 7 rfl).2.1 1 1 "T"
     ⟨"g", 10, 5, true, none⟩ rfl rfl rfl,
   (c10_no_wallet ⟨[], [(1, ⟨"g", 10, 5, true, none⟩)], [], [], []⟩ 7 rfl).2.2.1 100 "R",
   (c10_no_wallet ⟨[], [(1, ⟨"g", 10, 5, true, none⟩)], [], [], []⟩ 7 rfl).2.2.2.1,
   (c10_no_wallet
      ⟨[], [(1, ⟨"g", 10, 5, true, none⟩)],
       [⟨5, 2, some 9, none, none, [⟨1, 2, 0⟩], false, none, some "CODE"⟩], [], []⟩ 7 rfl).2.2.2.2
     "CODE" 3 ⟨5, 2, some 9, none, none, [⟨1, 2, 0⟩], false, none, some "CODE"⟩
     (0 + 10 * 2) rfl rfl rfl⟩

/-- C5, counterexample to the claim as stated: a request supplying BOTH an
owned card and an owned website passes every check and creates a single
box carrying both references — the "exactly one of the two, never both"
part fails.  (The card is used for the open-box lookup and back-link.) -/
theorem c5_target_xor_counterexample :
    ((addToGiftBox 1 1 (some 10) (some 20) 1 none 99 "C" 0
        ⟨[], [(1, ⟨"g", 10, 5, true, none⟩)], [], [⟨10, 1, none⟩],
         [⟨20, 1, none⟩]⟩).2.giftBoxes.map (fun b => (b.cardId, b.websiteId))) =
      [(some 10, some 20)] := rfl

/-- C5 (amended): a request with neither a card nor a website reference
fails with the validation error and changes nothing; a request that
passes validation and creates a box gives the box exactly the supplied
references — the card reference alone when only a card is supplied, the
website reference alone when only a website is supplied (and both when
both are supplied, per the counterexample). -/
theorem c5_target_refs :
    (∀ (u gid : ℕ) (q : ℚ) (e : Option String) (fid : ℕ) (code : String)
        (now : ℕ) (s : AppState),
        addToGiftBox u gid none none q e fid code now s = (.missingTarget, s)) ∧
    (∀ (u gid cid : ℕ) (q : ℚ) (e : Option String) (fid : ℕ) (code : String)
        (now : ℕ) (s : AppState),
        addBoxCheck u gid (some cid) none s = none →
        s.giftBoxes.find? (openBoxQuery u (some cid) none) = none →
        (addToGiftBox u gid (some cid) none q e fid code now s).2.giftBoxes =
          s.giftBoxes ++ [⟨fid, u, some cid, none, e, [⟨gid, q, now⟩], false, none, some code⟩]) ∧
    (∀ (u gid wid : ℕ) (q : ℚ) (e : Option String) (fid : ℕ) (code : String)
        (now : ℕ) (s : AppState),
        addBoxCheck u gid none (some wid) s = none →
        s.giftBoxes.find? (openBoxQuery u none (some wid)) = none →
        (addToGiftBox u gid none (some wid) q e fid code now s).2.giftBoxes =
          s.giftBoxes ++ [⟨fid, u, none, some wid, e, [⟨gid, q, now⟩], false, none, some code⟩]) := by
  refine ⟨?_, ?_, ?_⟩
  · intro u gid q e fid code now s
    rfl
  · intro u gid cid q e fid code now s hchk hbox
    unfold addToGiftBox
    rw [hchk]
    simp only
    unfold addBoxApply
    rw [hbox]
    simp [applyRedemptionCodeHook, mergeGiftItem, backLinkTarget]
  · intro u gid wid q e fid code now s hchk hbox
    unfold addToGiftBox
    rw [hchk]
    simp only
    unfold addBoxApply
    rw [hbox]
    simp [applyRedemptionCodeHook, mergeGiftItem, backLinkTarget]

/-- C5 witness: the missing-target rejection on the empty state, and the
created box's references for a card-only and a website-only request. -/
theorem c5_target_refs_witness :
    (addToGiftBox 1 1 none none 1 none 99 "C" 0 ⟨[], [], [], [], []⟩ =
      (.missingTarget, ⟨[], [], [], [], []⟩)) ∧
    ((addToGiftBox 1 1 (some 10) none 1 none 99 "C" 0
        ⟨[], [(1, ⟨"g", 10, 5, true, none⟩)], [], [⟨10, 1, none⟩], []⟩).2.giftBoxes =
      [⟨99, 1, some 10, none, none, [⟨1, 1, 0⟩], false, none, some "C"⟩]) ∧
    ((addToGiftBox 1 1 none (some 20) 1 none 99 "C" 0
        ⟨[], [(1, ⟨"g", 10, 5, true, none⟩)], [], [], [⟨20, 1, none⟩]⟩).2.giftBoxes =
      [⟨99, 1, none, some 20, none, [⟨1, 1, 0⟩], false, none, some "C"⟩]) :=
  ⟨c5_target_refs.1 1 1 1 none 99 "C" 0 ⟨[], [], [], [], []⟩,
   c5_target_refs.2.1 1 1 10 1 none 99 "C" 0
     ⟨[], [(1, ⟨"g", 10, 5, true, none⟩)], [], [⟨10, 1, none⟩], []⟩ rfl rfl,
   c5_target_refs.2.2 1 1 20 1 none 99 "C" 0
     ⟨[], [(1, ⟨"g", 10, 5, true, none⟩)], [], [], [⟨20, 1, none⟩]⟩ rfl rfl⟩

/-- C7: when an unredeemed box already exists for the (sender, target)
pair, `addToGiftBox` reuses it: the result carries the existing box's
identity and its existing redemption code, the number of boxes does not
change, every box in the new state keeps the identity and redemption code
of a box of the old state (the code, assigned by the pre-save hook only
when absent, is never regenerated), and the stored box is the old box
with the line item merged in. -/
theorem c7_box_reuse (u gid : ℕ) (cardId websiteId : Option ℕ) (q : ℚ)
    (e : Option String) (fid : ℕ) (fresh : String) (now : ℕ) (s : AppState)
    (b : GiftBox) (rc : String)
    (hchk : addBoxCheck u gid cardId websiteId s = none)
    (hbox : s.giftBoxes.find? (openBoxQuery u cardId websiteId) = some b)
    (hcode : b.redemptionCode = some rc) :
    (addToGiftBox u gid cardId websiteId q e fid fresh now s).1 =
      .added b.boxId (some rc) ∧
    (addToGiftBox u gid cardId websiteId q e fid fresh now s).2.giftBoxes.length =
      s.giftBoxes.length ∧
    (∀ b' ∈ (addToGiftBox u gid cardId websiteId q e fid fresh now s).2.giftBoxes,
       ∃ b0 ∈ s.giftBoxes, b'.boxId = b0.boxId ∧ b'.redemptionCode = b0.redemptionCode) ∧
    (addToGiftBox u gid cardId websiteId q e fid fresh now s).2.giftBoxes.find?
        (openBoxQuery u cardId websiteId) =
      some { b with gifts := mergeGiftItem gid q now b.gifts } := by
  have hbq := List.find?_some hbox
  have hook_eq : applyRedemptionCodeHook fresh
      { b with gifts := mergeGiftItem gid q now b.gifts } =
      { b with gifts := mergeGiftItem gid q now b.gifts } := by
    unfold applyRedemptionCodeHook
    rw [if_neg (by simp [hcode])]
  unfold addToGiftBox
  rw [hchk]
  simp only
  unfold addBoxApply
  rw [hbox]
  simp only
  rw [hook_eq]
  refine ⟨by simp [hcode], updateFirst_length _, ?_, ?_⟩
  · intro b' hb'
    rcases mem_updateFirst hb' with hold | ⟨y, hy, hpy, rfl⟩
    · exact ⟨b', hold, rfl, rfl⟩
    · exact ⟨b, List.mem_of_find?_eq_some hbox, rfl, rfl⟩
  · exact find?_updateFirst hbox hbq

/-- C7 witness: a state holding one open box (code "RC") for sender 1 and
card 10; adding gift 1 reuses box 99 with its code, keeps one box, and
stores the merged item list. -/
theorem c7_box_reuse_witness :
    ((addToGiftBox 1 1 (some 10) none 3 none 500 "FRESH" 7
        ⟨[], [(1, ⟨"g", 10, 5, true, none⟩)],
         [⟨99, 1, some 10, none, none, [⟨2, 1, 5⟩], false, none, some "RC"⟩],
         [⟨10, 1, none⟩], []⟩).1 = .added 99 (some "RC")) ∧
    ((addToGiftBox 1 1 (some 10) none 3 none 500 "FRESH" 7
        ⟨[], [(1, ⟨"g", 10, 5, true, none⟩)],
         [⟨99, 1, some 10, none, none, [⟨2, 1, 5⟩], false, none, some "RC"⟩],
         [⟨10, 1, none⟩], []⟩).2.giftBoxes.length = 1) ∧
    ((addToGiftBox 1 1 (some 10) none 3 none 500 "FRESH" 7
        ⟨[], [(1, ⟨"g", 10, 5, true, none⟩)],
         [⟨99, 1, some 10, none, none, [⟨2, 1, 5⟩], false, none, some "RC"⟩],
         [⟨10, 1, none⟩], []⟩).2.giftBoxes.find? (openBoxQuery 1 (some 10) none) =
      some ⟨99, 1, some 10, none, none, [⟨2, 1, 5⟩, ⟨1, 3, 7⟩], false, none, some "RC"⟩) :=
  ⟨(c7_box_reuse 1 1 (some 10) none 3 none 500 "FRESH" 7
      ⟨[], [(1, ⟨"g", 10, 5, true, none⟩)],
       [⟨99, 1, some 10, none, none, [⟨2, 1, 5⟩], false, none, some "RC"⟩],
       [⟨10, 1, none⟩], []⟩
      ⟨99, 1, some 10, none, none, [⟨2, 1, 5⟩], false, none, some "RC"⟩ "RC"
      rfl rfl rfl).1,
   (c7_box_reuse 1 1 (some 10) none 3 none 500 "FRESH" 7
      ⟨[], [(1, ⟨"g", 10, 5, true, none⟩)],
       [⟨99, 1, some 10, none, none, [⟨2, 1, 5⟩], false, none, some "RC"⟩],
       [⟨10, 1, none⟩], []⟩
      ⟨99, 1, some 10, none, none, [⟨2, 1, 5⟩], false, none, some "RC"⟩ "RC"
      rfl rfl rfl).2.1,
   (c7_box_reuse 1 1 (some 10) none 3 none 500 "FRESH" 7
      ⟨[], [(1, ⟨"g", 10, 5, true, none⟩)],
       [⟨99, 1, some 10, none, none, [⟨2, 1, 5⟩], false, none, some "RC"⟩],
       [⟨10, 1, none⟩], []⟩
      ⟨99, 1, some 10, none, none, [⟨2, 1, 5⟩], false, none, some "RC"⟩ "RC"
      rfl rfl rfl).2.2.2⟩

theorem mergeGiftItem_merge (gid : ℕ) (q1 q2 : ℚ) (n1 n2 : ℕ)
    (items : List GiftBoxItem) :
    mergeGiftItem gid q2 n2 (mergeGiftItem gid q1 n1 items) =
      mergeGiftItem gid (q1 + q2) n1 items := by
  induction items with
  | nil => simp [mergeGiftItem]
  | cons g gs ih =>
    by_cases h : g.giftId = gid
    · simp [mergeGiftItem, h, add_assoc]
    · simp [mergeGiftItem, h, ih]

theorem openBoxQuery_hook (u : ℕ) (cardId websiteId : Option ℕ) (fresh : String)
    (b : GiftBox) :
    openBoxQuery u cardId websiteId (applyRedemptionCodeHook fresh b) =
      openBoxQuery u cardId websiteId b := by
  unfold applyRedemptionCodeHook
  by_cases h : b.redemptionCode = none
  · rw [if_pos h]
    rfl
  · rw [if_neg h]

theorem updateFirst_updateFirst_const {p : α → Bool} {c1 : α} (c2 : α)
    (hc1 : p c1 = true) (l : List α) :
    updateFirst p (fun _ => c2) (updateFirst p (fun _ => c1) l) =
      updateFirst p (fun _ => c2) l := by
  induction l with
  | nil => rfl
  | cons a as ih =>
    by_cases hp : p a = true
    · simp [updateFirst, hp, hc1]
    · simp [updateFirst, hp, ih]

theorem updateFirst_append_of_none {p : α → Bool} {f : α → α} {l : List α} {x : α}
    (h : l.find? p = none) (hx : p x = true) :
    updateFirst p f (l ++ [x]) = l ++ [f x] := by
  rw [List.find?_eq_none] at h
  induction l with
  | nil => simp [updateFirst, hx]
  | cons a as ih =>
    rw [List.cons_append, List.cons_append]
    rw [show updateFirst p f (a :: (as ++ [x])) =
        a :: updateFirst p f (as ++ [x]) from by
      simp [updateFirst, h a (List.mem_cons_self a as)]]
    rw [ih (fun y hy => h y (List.mem_cons_of_mem a hy))]

theorem isNone_find?_updateFirst {p q : α → Bool} {f : α → α} {l : List α}
    (hf : ∀ x, q (f x) = q x) :
    ((updateFirst p f l).find? q).isNone = (l.find? q).isNone := by
  induction l with
  | nil => rfl
  | cons a as ih =>
    by_cases hp : p a = true
    · simp only [updateFirst, if_pos hp]
      by_cases hq : q a = true
      · rw [List.find?_cons_of_pos _ (by rw [hf]; exact hq),
          List.find?_cons_of_pos _ hq]
        rfl
      · rw [List.find?_cons_of_neg _ (by rw [hf]; simpa using hq),
          List.find?_cons_of_neg _ (by simpa using hq)]
    · simp only [updateFirst, if_neg hp]
      by_cases hq : q a = true
      · rw [List.find?_cons_of_pos _ hq, List.find?_cons_of_pos _ hq]
      · rw [List.find?_cons_of_neg _ (by simpa using hq),
          List.find?_cons_of_neg _ (by simpa using hq)]
        exact ih

theorem backLinkTarget_giftBoxes (cardId websiteId : Option ℕ) (boxId : ℕ)
    (s : AppState) : (backLinkTarget cardId websiteId boxId s).giftBoxes = s.giftBoxes := by
  unfold backLinkTarget
  cases cardId with
  | some cid => rfl
  | none =>
    cases websiteId with
    | some wid => rfl
    | none => rfl

theorem addBoxCheck_congr {u gid : ℕ} {cardId websiteId : Option ℕ} {s s' : AppState}
    (hg : s'.gifts = s.gifts)
    (hc : (s'.cards.find? (fun c => decide (cardId = some c.cardId ∧ c.userId = u))).isNone =
          (s.cards.find? (fun c => decide (cardId = some c.cardId ∧ c.userId = u))).isNone)
    (hw : (s'.websites.find? (fun v => decide (websiteId = some v.websiteId ∧ v.userId = u))).isNone =
          (s.websites.find? (fun v => decide (websiteId = some v.websiteId ∧ v.userId = u))).isNone) :
    addBoxCheck u gid cardId websiteId s' = addBoxCheck u gid cardId websiteId s := by
  unfold addBoxCheck
  rw [hg, hc, hw]

theorem addBoxCheck_addBoxApply (u gid : ℕ) (cardId websiteId : Option ℕ) (q : ℚ)
    (e : Option String) (fid : ℕ) (code : String) (now : ℕ) (s : AppState) :
    addBoxCheck u gid cardId websiteId
        (addBoxApply u gid cardId websiteId q e fid code now s).2 =
      addBoxCheck u gid cardId websiteId s := by
  unfold addBoxApply
  cases hb : s.giftBoxes.find? (openBoxQuery u cardId websiteId) with
  | some box => rfl
  | none =>
    simp only
    refine addBoxCheck_congr ?_ ?_ ?_
    · rw [show (backLinkTarget cardId websiteId
        (applyRedemptionCodeHook code
          ⟨fid, u, cardId, websiteId, e, [], false, none, none⟩).boxId s).gifts = s.gifts from ?_]
      unfold backLinkTarget
      cases cardId with
      | some cid => rfl
      | none => cases websiteId with
        | some wid => rfl
        | none => rfl
    · unfold backLinkTarget
      cases cardId with
      | some cid =>
        simp only
        exact isNone_find?_updateFirst (fun x => rfl)
      | none =>
        cases websiteId with
        | some wid => rfl
        | none => rfl
    · unfold backLinkTarget
      cases cardId with
      | some cid => rfl
      | none =>
        cases websiteId with
        | some wid =>
          simp only
          exact isNone_find?_updateFirst (fun x => rfl)
        | none => rfl

theorem find?_updateFirst_const {p : α → Bool} {l : List α} {y : α} (c : α)
    (h : l.find? p = some y) (hc : p c = true) :
    (updateFirst p (fun _ => c) l).find? p = some c :=
  find?_updateFirst h hc

theorem addBoxApply_merge (u gid : ℕ) (cardId websiteId : Option ℕ) (q1 q2 : ℚ)
    (e e2 : Option String) (fid fid2 : ℕ) (code code2 : String) (now now2 : ℕ)
    (s : AppState) :
    (addBoxApply u gid cardId websiteId q2 e2 fid2 code2 now2
        (addBoxApply u gid cardId websiteId q1 e fid code now s).2).2 =
      (addBoxApply u gid cardId websiteId (q1 + q2) e fid code now s).2 := by
  cases hb : s.giftBoxes.find? (openBoxQuery u cardId websiteId) with
  | some box =>
    have hbq := List.find?_some hb
    have hbq1 : openBoxQuery u cardId websiteId (applyRedemptionCodeHook code
        { box with gifts := mergeGiftItem gid q1 now box.gifts }) = true := by
      rw [openBoxQuery_hook]
      exact hbq
    unfold addBoxApply
    rw [hb]
    simp only
    rw [find?_updateFirst_const _ hb hbq1]
    simp only
    rw [updateFirst_updateFirst_const _ hbq1]
    have hbox2 : applyRedemptionCodeHook code2
        { applyRedemptionCodeHook code { box with gifts := mergeGiftItem gid q1 now box.gifts } with
            gifts := mergeGiftItem gid q2 now2
              (applyRedemptionCodeHook code
                { box with gifts := mergeGiftItem gid q1 now box.gifts }).gifts } =
        applyRedemptionCodeHook code
          { box with gifts := mergeGiftItem gid (q1 + q2) now box.gifts } := by
      by_cases hrc : box.redemptionCode = none
      · simp [applyRedemptionCodeHook, hrc, mergeGiftItem_merge]
      · simp [applyRedemptionCodeHook, hrc, mergeGiftItem_merge]
    rw [hbox2]
  | none =>
    have hbqd : openBoxQuery u cardId websiteId (applyRedemptionCodeHook code
        ⟨fid, u, cardId, websiteId, e, [], false, none, none⟩) = true := by
      rw [openBoxQuery_hook]
      unfold openBoxQuery
      cases cardId with
      | some cid => simp
      | none => simp
    have hbqf : openBoxQuery u cardId websiteId (applyRedemptionCodeHook code
        { applyRedemptionCodeHook code ⟨fid, u, cardId, websiteId, e, [], false, none, none⟩ with
            gifts := mergeGiftItem gid q1 now
              (applyRedemptionCodeHook code
                ⟨fid, u, cardId, websiteId, e, [], false, none, none⟩).gifts }) = true := by
      rw [openBoxQuery_hook]
      exact hbqd
    unfold addBoxApply
    rw [hb]
    simp only
    rw [backLinkTarget_giftBoxes, find?_append_left_none _ hb,
      List.find?_cons_of_pos _ hbqf]
    simp only
    rw [updateFirst_append_of_none hb hbqf]
    simp [applyRedemptionCodeHook, mergeGiftItem_merge]

/-- C6: `addToGiftBox` merges line items by gift — in any state, adding
gift G with quantity q1 and then G again with quantity q2 (with whatever
fresh box id, code and timestamp the second request draws) leaves exactly
the state of a single add of G with quantity q1 + q2; and on a box with
no item for G yet, the first add appends one item stamped with its
timestamp and the second add leaves exactly one item for G with quantity
q1 + q2. -/
theorem c6_merge_adds (u gid : ℕ) (cardId websiteId : Option ℕ) (q1 q2 : ℚ)
    (e e2 : Option String) (fid fid2 : ℕ) (code code2 : String) (now now2 : ℕ)
    (s : AppState) :
    (addToGiftBox u gid cardId websiteId q2 e2 fid2 code2 now2
        (addToGiftBox u gid cardId websiteId q1 e fid code now s).2).2 =
      (addToGiftBox u gid cardId websiteId (q1 + q2) e fid code now s).2 ∧
    mergeGiftItem gid q1 now [] = [⟨gid, q1, now⟩] ∧
    mergeGiftItem gid q2 now2 (mergeGiftItem gid q1 now []) = [⟨gid, q1 + q2, now⟩] := by
  refine ⟨?_, rfl, mergeGiftItem_merge gid q1 q2 now now2 []⟩
  unfold addToGiftBox
  cases hc : addBoxCheck u gid cardId websiteId s with
  | some err => simp only [hc]
  | none =>
    simp only [hc, addBoxCheck_addBoxApply]
    exact addBoxApply_merge u gid cardId websiteId q1 q2 e e2 fid fid2
      code code2 now now2 s

end WishCube
